import Mathlib

/-!
Shallow embedding of the browser recording-and-upload state machine of
`src/interview.js` (the defensive variant, lines 96-338) and the stop path of
`src/unnamed/part_000` (lines 1-245).  DOM writes are modelled as fields of an
explicit `UIState`; the platform (capability query, microphone grant, encoder
construction, blob construction, network) is modelled by explicit parameters;
the asynchronous settling delay is dropped (it only orders events, all of
which are already sequenced here).
-/

/-- A captured media chunk (`e.data`): an opaque byte sequence. -/
abbrev Chunk := List Nat

/-- The DOM state the script reads and writes: status line, transcript box
(`question`), answer box, the optional detected-language tag (its
`innerText`, `none` when absent from the DOM), and start/stop button
visibility. -/
structure UIState where
  status : String
  question : String
  answer : String
  detectedLang : Option String
  startVisible : Bool
  stopVisible : Bool
deriving DecidableEq, Repr

/-- The idle page: status "Idle", empty boxes, start shown, stop hidden. -/
def idleUI : UIState :=
  { status := "Idle", question := "", answer := "", detectedLang := none,
    startVisible := true, stopVisible := false }

/-- `resetUI` (src/interview.js lines 127-133): clear question and answer
text and remove the detected-language tag. -/
def resetUI (ui : UIState) : UIState :=
  { ui with question := "", answer := "", detectedLang := none }

/-- JavaScript `String.prototype.includes`: substring containment. -/
def jsIncludes (s sub : String) : Bool :=
  decide (sub.toList <:+: s.toList)

/-- JavaScript `String.prototype.trim`: strip leading and trailing
whitespace. -/
def jsTrim (s : String) : String :=
  ⟨((s.toList.dropWhile Char.isWhitespace).reverse.dropWhile
      Char.isWhitespace).reverse⟩

/-- JavaScript `a || b` on an optional string (`?.value || "auto"`):
`undefined` and the empty string are falsy. -/
def jsOr (o : Option String) (d : String) : String :=
  match o with
  | some s => if s = "" then d else s
  | none => d

/-- The fixed candidate list of `chooseMimeType`
(src/interview.js lines 104-111). -/
def mimeCandidates : List String :=
  ["audio/webm;codecs=opus", "audio/webm", "audio/ogg",
   "audio/mp4", "audio/mpeg", "audio/wav"]

/-- The `for`-loop of `chooseMimeType`: first candidate the runtime supports,
else the empty string. -/
def firstSupported (s : String → Bool) : List String → String
  | [] => ""
  | t :: ts => if s t then t else firstSupported s ts

/-- `chooseMimeType` (src/interview.js lines 103-122), parametrised by the
runtime capability predicate `MediaRecorder.isTypeSupported`. -/
def chooseMimeType (s : String → Bool) : String :=
  firstSupported s mimeCandidates

/-- The `ondataavailable` handler (src/interview.js lines 175-177): append
`e.data` to the chunk buffer only when it is present and non-empty. -/
def handleData (buf : List Chunk) (e : Option Chunk) : List Chunk :=
  match e with
  | some d => if 0 < d.length then buf ++ [d] else buf
  | none => buf

/-- The chunk buffer after a sequence of `ondataavailable` events. -/
def processEvents (buf : List Chunk) : List (Option Chunk) → List Chunk
  | [] => buf
  | e :: es => processEvents (handleData buf e) es

/-- `new Blob(audioChunks, ...)` (src/interview.js line 210): order-preserving
concatenation of the buffered chunks. -/
def assembleBlob (buffer : List Chunk) : List Nat :=
  buffer.flatten

/-- Extension derivation of the stop path in src/interview.js
(lines 224-227): default "webm", overridden by "ogg" and "mp4" checks. -/
def extInterview (m : String) : String :=
  let ext := "webm"
  let ext := if jsIncludes m "ogg" then "ogg" else ext
  let ext := if jsIncludes m "mp4" then "mp4" else ext
  ext

/-- Extension derivation of the stop path in src/unnamed/part_000
(lines 131-134): as above plus the "mpeg" to "mp3" case. -/
def extPart000 (m : String) : String :=
  let ext := "webm"
  let ext := if jsIncludes m "ogg" then "ogg" else ext
  let ext := if jsIncludes m "mp4" then "mp4" else ext
  let ext := if jsIncludes m "mpeg" then "mp3" else ext
  ext

/-- The JSON body the transcription endpoint returns; every field may be
absent. -/
structure TranscriptionResponse where
  question : Option String
  answer : Option String
  detected_language : Option String
deriving DecidableEq, Repr

/-- Outcome of the `fetch`/`response.json()` round trip: transport or parse
failure (the `catch` branch), or a parsed response. -/
inductive FetchOutcome
  | failure
  | success (r : TranscriptionResponse)
deriving DecidableEq, Repr

/-- The multipart payload `stopListening` submits: the assembled blob, the
`speech.<ext>` filename, and the two language fields. -/
structure UploadRequest where
  blob : List Nat
  filename : String
  language : String
  output_language : String
deriving DecidableEq, Repr

/-- Result of `startListening`: either it returned early (no live recorder)
or a recorder was constructed with the given `currentMimeType`. -/
inductive StartOutcome
  | aborted
  | started (mime : String)
deriving DecidableEq, Repr

def listeningStatus : String := "🎙 Listening… Speak clearly"
def micBlockedStatus : String := "❌ Microphone blocked. Enable permission."
def notSupportedStatus : String := "❌ Recording not supported on this device."
def processingStatus : String := "⏳ Processing… Please wait"
def noAudioStatus : String := "❌ No audio detected."

/-- The `options` object passed to the first `MediaRecorder` construction:
`mimeType` is set only when `chooseMimeType` returned a non-empty string
(src/interview.js lines 158-160). -/
def startOptions (s : String → Bool) : Option String :=
  if chooseMimeType s = "" then none else some (chooseMimeType s)

/-- `startListening` (src/interview.js lines 138-181).  `micGranted` models
whether `getUserMedia` resolves; `construct o` models whether
`new MediaRecorder(stream, options)` succeeds for options with mimeType `o`
(`none` when the options object is empty).  The chunk handler registration is
modelled separately by `processEvents`. -/
def startListening (s : String → Bool) (micGranted : Bool)
    (construct : Option String → Bool) (ui : UIState) : UIState × StartOutcome :=
  let ui := resetUI ui
  let ui := { ui with startVisible := false, stopVisible := true,
                      status := listeningStatus }
  if micGranted then
    let mime := chooseMimeType s
    if construct (startOptions s) then (ui, .started mime)
    else if construct (some "audio/ogg") then (ui, .started "audio/ogg")
    else ({ ui with status := notSupportedStatus }, .aborted)
  else
    ({ ui with status := micBlockedStatus }, .aborted)

/-- `stopListening` and its `onstop` continuation (src/interview.js lines
186-269).  `active` models `mediaRecorder && mediaRecorder.state !==
"inactive"`; `blobOK` whether `new Blob(audioChunks, currentMimeType)`
succeeds (else the `audio/ogg` fallback type is recorded); `langSel`/`outSel`
the optional language selector values; `fetch` the network outcome.  Returns
the final UI state and the upload request, `none` when no request was
issued. -/
def stopListening (active : Bool) (buffer : List Chunk) (mime : String)
    (blobOK : Bool) (langSel outSel : Option String) (fetch : FetchOutcome)
    (ui : UIState) : UIState × Option UploadRequest :=
  let ui := { ui with stopVisible := false, startVisible := true,
                      status := processingStatus }
  if active then
    let mime := if blobOK then mime else "audio/ogg"
    let blob := assembleBlob buffer
    if blob.length < 800 then
      ({ ui with status := noAudioStatus, question := "(no voice captured)",
                 answer := "(no answer)" }, none)
    else
      let req : UploadRequest :=
        { blob := blob, filename := "speech." ++ extInterview mime,
          language := jsOr langSel "auto", output_language := jsOr outSel "same" }
      match fetch with
      | .failure =>
          ({ ui with status := "Idle", question := "(server error)",
                     answer := "Could not connect." }, some req)
      | .success r =>
          let ui := { ui with question := r.question.getD "(no text)",
                              answer := r.answer.getD "(no answer)",
                              status := "Idle" }
          let ui :=
            match r.detected_language with
            | some l =>
                if l = "" then ui
                else { ui with detectedLang := some ("Detected language: " ++ l) }
            | none => ui
          (ui, some req)
  else
    ({ ui with status := "Idle" }, none)

/-- One full capture session: `startListening`, then (when a recorder was
constructed) the chunk-arrival events, then `stopListening` on the resulting
buffer. -/
def runSession (s : String → Bool) (micGranted : Bool)
    (construct : Option String → Bool) (events : List (Option Chunk))
    (blobOK : Bool) (langSel outSel : Option String) (fetch : FetchOutcome)
    (ui : UIState) : UIState × Option UploadRequest :=
  match startListening s micGranted construct ui with
  | (ui1, .aborted) => (ui1, none)
  | (ui1, .started mime) =>
      stopListening true (processEvents [] events) mime blobOK langSel outSel
        fetch ui1

/-- Outcome of the regeneration round trip. -/
inductive RegenOutcome
  | failure
  | success (answer : Option String)
deriving DecidableEq, Repr

/-- `regenerateAnswer` (src/interview.js lines 283-306): `questionText` is
the transcript box text; returns the final answer-box text and whether a
request was issued to the regeneration endpoint. -/
def regenerateAnswer (questionText : String) (outcome : RegenOutcome) :
    String × Bool :=
  if jsTrim questionText = "" then ("(no text to regenerate)", false)
  else
    match outcome with
    | .failure => ("(server error)", true)
    | .success a => (jsOr a "(no answer)", true)

/-- The buffer built by the chunk handler is the prior buffer followed by
exactly the non-empty present chunks, in arrival order. -/
theorem processEvents_eq (events : List (Option Chunk)) (buf : List Chunk) :
    processEvents buf events =
      buf ++ (events.filterMap id).filter (fun c => decide (0 < c.length)) := by
  induction events generalizing buf with
  | nil => simp [processEvents]
  | cons e es ih =>
      cases e with
      | none => simp [processEvents, handleData, ih]
      | some d =>
          simp only [processEvents, handleData]
          by_cases h : 0 < d.length
          · rw [if_pos h, ih (buf ++ [d])]
            simp [h, List.append_assoc]
          · rw [if_neg h, ih buf]
            simp [h]

/-- C1: for any sequence of chunk-arrival events in one capture session, the
buffer is exactly the non-empty chunks in arrival order, the assembled asset
is their order-preserving concatenation, its byte length is the sum of their
lengths, and every buffered chunk is non-empty. -/
theorem assembled_asset_concat (events : List (Option Chunk)) :
    processEvents [] events =
      (events.filterMap id).filter (fun c => decide (0 < c.length)) ∧
    assembleBlob (processEvents [] events) =
      ((events.filterMap id).filter (fun c => decide (0 < c.length))).flatten ∧
    (assembleBlob (processEvents [] events)).length =
      ((processEvents [] events).map List.length).sum ∧
    (processEvents [] events).all (fun c => decide (0 < c.length)) = true := by
  refine ⟨by simpa using processEvents_eq events [], ?_, ?_, ?_⟩
  · rw [processEvents_eq]; rfl
  · simp [assembleBlob]
  · rw [processEvents_eq]
    simp only [List.nil_append, List.all_eq_true]
    intro c hc
    simpa using (List.mem_filter.mp hc).2

/-- `firstSupported` returns the empty sentinel when no candidate is
supported. -/
theorem firstSupported_of_all_false (s : String → Bool) (l : List String)
    (h : ∀ t ∈ l, s t = false) : firstSupported s l = "" := by
  induction l with
  | nil => rfl
  | cons t ts ih =>
      have ht := h t (by simp)
      simp only [firstSupported, ht, Bool.false_eq_true, if_false]
      exact ih (fun u hu => h u (by simp [hu]))

/-- `firstSupported` returns the first supported candidate. -/
theorem firstSupported_append (s : String → Bool) (l₁ : List String)
    (t : String) (l₂ : List String) (ht : s t = true)
    (h : ∀ u ∈ l₁, s u = false) : firstSupported s (l₁ ++ t :: l₂) = t := by
  induction l₁ with
  | nil => simp [firstSupported, ht]
  | cons u us ih =>
      have hu := h u (by simp)
      simp only [List.cons_append, firstSupported, hu, Bool.false_eq_true,
        if_false]
      exact ih (fun v hv => h v (by simp [hv]))

/-- C3: `chooseMimeType` is a total function of the capability predicate
(hence deterministic and never throwing): when no candidate is supported it
returns the empty sentinel, and whenever the candidate list splits as
`l₁ ++ t :: l₂` with every candidate of `l₁` unsupported and `t` supported,
it returns `t` — the first supported candidate, never a later one. -/
theorem chooseMimeType_first_supported (s : String → Bool) :
    ((∀ t ∈ mimeCandidates, s t = false) → chooseMimeType s = "") ∧
    (∀ l₁ t l₂, mimeCandidates = l₁ ++ t :: l₂ → s t = true →
      (∀ u ∈ l₁, s u = false) → chooseMimeType s = t) := by
  constructor
  · intro h
    exact firstSupported_of_all_false s mimeCandidates h
  · intro l₁ t l₂ hsplit ht h
    rw [chooseMimeType, hsplit]
    exact firstSupported_append s l₁ t l₂ ht h

/-- Witness for C3: a runtime supporting only "audio/ogg" negotiates
"audio/ogg" (the third candidate), and a runtime supporting nothing
negotiates the empty sentinel. -/
theorem chooseMimeType_first_supported_w :
    chooseMimeType (fun t => t == "audio/ogg") = "audio/ogg" ∧
    chooseMimeType (fun _ => false) = "" :=
  ⟨(chooseMimeType_first_supported (fun t => t == "audio/ogg")).2
      ["audio/webm;codecs=opus", "audio/webm"] "audio/ogg"
      ["audio/mp4", "audio/mpeg", "audio/wav"] rfl (by decide) (by decide),
   (chooseMimeType_first_supported (fun _ => false)).1 (by decide)⟩

/-- C2: a completed stop whose assembled asset is below 800 bytes issues no
upload request, sets the status to the no-audio message, and writes the
"(no voice captured)" / "(no answer)" placeholders — not the server-error
texts, so the path is not a network or server error. -/
theorem small_capture_skips_upload (buffer : List Chunk) (mime : String)
    (blobOK : Bool) (langSel outSel : Option String) (fetch : FetchOutcome)
    (ui : UIState) (h : (assembleBlob buffer).length < 800) :
    (stopListening true buffer mime blobOK langSel outSel fetch ui).2 = none ∧
    (stopListening true buffer mime blobOK langSel outSel fetch ui).1.status =
      noAudioStatus ∧
    (stopListening true buffer mime blobOK langSel outSel fetch ui).1.question =
      "(no voice captured)" ∧
    (stopListening true buffer mime blobOK langSel outSel fetch ui).1.answer =
      "(no answer)" := by
  simp [stopListening, h]

/-- Witness for C2: stopping with an empty buffer (asset of 0 bytes) issues
no upload and reports no audio. -/
theorem small_capture_skips_upload_w :
    (stopListening true [] "audio/webm" true none none FetchOutcome.failure
      idleUI).2 = none ∧
    (stopListening true [] "audio/webm" true none none FetchOutcome.failure
      idleUI).1.status = noAudioStatus ∧
    (stopListening true [] "audio/webm" true none none FetchOutcome.failure
      idleUI).1.question = "(no voice captured)" ∧
    (stopListening true [] "audio/webm" true none none FetchOutcome.failure
      idleUI).1.answer = "(no answer)" :=
  small_capture_skips_upload [] "audio/webm" true none none
    FetchOutcome.failure idleUI (by decide)

/-- C5: when the upload round trip fails in transport (network unreachable or
non-JSON body), the status returns to "Idle" and the two display fields are
overwritten with the distinct "(server error)" / "Could not connect." texts,
whatever they showed before; the request itself was issued. -/
theorem transport_failure_render (buffer : List Chunk) (mime : String)
    (blobOK : Bool) (langSel outSel : Option String) (ui : UIState)
    (h : 800 ≤ (assembleBlob buffer).length) :
    (stopListening true buffer mime blobOK langSel outSel FetchOutcome.failure
      ui).1.status = "Idle" ∧
    (stopListening true buffer mime blobOK langSel outSel FetchOutcome.failure
      ui).1.question = "(server error)" ∧
    (stopListening true buffer mime blobOK langSel outSel FetchOutcome.failure
      ui).1.answer = "Could not connect." ∧
    (stopListening true buffer mime blobOK langSel outSel FetchOutcome.failure
      ui).2.isSome = true := by
  have h' : ¬ (assembleBlob buffer).length < 800 := by omega
  simp [stopListening, h']

/-- An 800-byte chunk, used as a concrete above-threshold capture. -/
def bigChunk : Chunk := List.replicate 800 0

/-- The concrete chunk really has 800 bytes. -/
theorem bigChunk_len : bigChunk.length = 800 := by
  rw [bigChunk, List.length_replicate]

/-- Witness for C5: a transport failure after an 800-byte capture, starting
from a UI still showing a previous successful result. -/
theorem transport_failure_render_w :
    (stopListening true [bigChunk] "audio/webm" true none none
      FetchOutcome.failure
      { idleUI with question := "old Q", answer := "old A" }).1.status =
        "Idle" ∧
    (stopListening true [bigChunk] "audio/webm" true none none
      FetchOutcome.failure
      { idleUI with question := "old Q", answer := "old A" }).1.question =
        "(server error)" ∧
    (stopListening true [bigChunk] "audio/webm" true none none
      FetchOutcome.failure
      { idleUI with question := "old Q", answer := "old A" }).1.answer =
        "Could not connect." ∧
    (stopListening true [bigChunk] "audio/webm" true none none
      FetchOutcome.failure
      { idleUI with question := "old Q", answer := "old A" }).2.isSome =
        true :=
  transport_failure_render [bigChunk] "audio/webm" true none none
    { idleUI with question := "old Q", answer := "old A" }
    (by simp [assembleBlob, bigChunk_len])

/-- On the success path of an above-threshold stop, the rendered fields come
from the response by nullish coalescing, the status is "Idle", and a request
was issued. -/
theorem stop_success_fields (buffer : List Chunk) (mime : String)
    (blobOK : Bool) (langSel outSel : Option String) (ui : UIState)
    (r : TranscriptionResponse) (h : 800 ≤ (assembleBlob buffer).length) :
    (stopListening true buffer mime blobOK langSel outSel
      (FetchOutcome.success r) ui).1.question = r.question.getD "(no text)" ∧
    (stopListening true buffer mime blobOK langSel outSel
      (FetchOutcome.success r) ui).1.answer = r.answer.getD "(no answer)" ∧
    (stopListening true buffer mime blobOK langSel outSel
      (FetchOutcome.success r) ui).1.status = "Idle" ∧
    (stopListening true buffer mime blobOK langSel outSel
      (FetchOutcome.success r) ui).2.isSome = true := by
  have h' : ¬ (assembleBlob buffer).length < 800 := by omega
  rcases r with ⟨q, a, dl⟩
  cases dl with
  | none => simp [stopListening, h']
  | some l =>
      by_cases hl : l = "" <;> simp [stopListening, h', hl]

/-- On the success path of an above-threshold stop, the detected-language tag
is inserted exactly when the response carries a truthy (non-empty)
`detected_language`; otherwise the tag state is whatever it was when the
callback ran. -/
theorem stop_success_detectedLang (buffer : List Chunk) (mime : String)
    (blobOK : Bool) (langSel outSel : Option String) (ui : UIState)
    (q a dl : Option String) (h : 800 ≤ (assembleBlob buffer).length) :
    (stopListening true buffer mime blobOK langSel outSel
      (FetchOutcome.success ⟨q, a, dl⟩) ui).1.detectedLang =
      (match dl with
       | some l =>
           if l = "" then ui.detectedLang
           else some ("Detected language: " ++ l)
       | none => ui.detectedLang) := by
  have h' : ¬ (assembleBlob buffer).length < 800 := by omega
  cases dl with
  | none => simp [stopListening, h']
  | some l =>
      by_cases hl : l = "" <;> simp [stopListening, h', hl]

/-- C9: on the upload success path the placeholders are decided by nullish
coalescing, not falsiness: the displayed texts equal `getD` of the response
fields, so an empty-string `question`/`answer` is displayed as empty text and
the "(no text)" / "(no answer)" placeholders appear exactly when the field is
absent. -/
theorem nullish_placeholders (buffer : List Chunk) (mime : String)
    (blobOK : Bool) (langSel outSel : Option String) (ui : UIState)
    (r : TranscriptionResponse) (h : 800 ≤ (assembleBlob buffer).length) :
    (stopListening true buffer mime blobOK langSel outSel
      (FetchOutcome.success r) ui).1.question = r.question.getD "(no text)" ∧
    (stopListening true buffer mime blobOK langSel outSel
      (FetchOutcome.success r) ui).1.answer = r.answer.getD "(no answer)" ∧
    (r.question = some "" →
      (stopListening true buffer mime blobOK langSel outSel
        (FetchOutcome.success r) ui).1.question = "") ∧
    (r.answer = some "" →
      (stopListening true buffer mime blobOK langSel outSel
        (FetchOutcome.success r) ui).1.answer = "") ∧
    (r.question = none →
      (stopListening true buffer mime blobOK langSel outSel
        (FetchOutcome.success r) ui).1.question = "(no text)") ∧
    (r.answer = none →
      (stopListening true buffer mime blobOK langSel outSel
        (FetchOutcome.success r) ui).1.answer = "(no answer)") := by
  obtain ⟨h1, h2, _, _⟩ :=
    stop_success_fields buffer mime blobOK langSel outSel ui r h
  exact ⟨h1, h2,
    fun hq => by rw [h1, hq]; rfl,
    fun ha => by rw [h2, ha]; rfl,
    fun hq => by rw [h1, hq]; rfl,
    fun ha => by rw [h2, ha]; rfl⟩

/-- Witness for C9: a response with empty-string question and absent answer
renders an empty transcript (not the placeholder) and the answer
placeholder. -/
theorem nullish_placeholders_w :
    (stopListening true [bigChunk] "audio/webm" true none none
      (FetchOutcome.success ⟨some "", none, none⟩) idleUI).1.question = "" ∧
    (stopListening true [bigChunk] "audio/webm" true none none
      (FetchOutcome.success ⟨some "", none, none⟩) idleUI).1.answer =
      "(no answer)" :=
  ⟨(nullish_placeholders [bigChunk] "audio/webm" true none none idleUI
      ⟨some "", none, none⟩ (by simp [assembleBlob, bigChunk_len])).2.2.1 rfl,
   (nullish_placeholders [bigChunk] "audio/webm" true none none idleUI
      ⟨some "", none, none⟩ (by simp [assembleBlob, bigChunk_len])).2.2.2.2.2
      rfl⟩

/-- C10: `regenerateAnswer` issues no request and writes the
"(no text to regenerate)" placeholder when the trimmed transcript is empty
(empty or whitespace-only text), and issues a request exactly when the
trimmed transcript is non-empty. -/
theorem regen_empty_guard (q : String) (outcome : RegenOutcome) :
    (jsTrim q = "" →
      regenerateAnswer q outcome = ("(no text to regenerate)", false)) ∧
    (¬ jsTrim q = "" → (regenerateAnswer q outcome).2 = true) := by
  constructor
  · intro h
    simp [regenerateAnswer, h]
  · intro h
    cases outcome <;> simp [regenerateAnswer, h]

/-- Witness for C10: whitespace-only text short-circuits without a request;
"hello" issues one. -/
theorem regen_empty_guard_w :
    regenerateAnswer "   " RegenOutcome.failure =
      ("(no text to regenerate)", false) ∧
    (regenerateAnswer "hello" RegenOutcome.failure).2 = true :=
  ⟨(regen_empty_guard "   " RegenOutcome.failure).1 (by decide),
   (regen_empty_guard "hello" RegenOutcome.failure).2 (by decide)⟩

/-- When `startListening` with a granted microphone reports a constructed
recorder, the UI it leaves behind is the reset page with the listening
affordances (in particular, no detected-language tag survives the start). -/
theorem startListening_started (s : String → Bool)
    (construct : Option String → Bool) (ui : UIState) (mime : String)
    (h : (startListening s true construct ui).2 = StartOutcome.started mime) :
    startListening s true construct ui =
      ({ resetUI ui with
          startVisible := false, stopVisible := true,
          status := listeningStatus }, StartOutcome.started mime) := by
  by_cases h1 : construct (startOptions s)
  · simp only [startListening, if_true, h1] at h ⊢
    simp_all
  · by_cases h2 : construct (some "audio/ogg")
    · simp only [startListening, if_true, h1, h2] at h ⊢
      simp_all
    · simp only [startListening, if_true, h1, h2] at h
      simp_all

/-- C4: a session whose start constructed a recorder and whose capture is at
least 800 bytes, uploaded with a response parsing as question `q` and answer
`a`, displays exactly `q` and `a`, returns the status to "Idle", and issued
the request; if the response omits `detected_language` no tag is present —
in particular a stale tag from a prior run was removed by the reset at
session start — and if it carries a non-empty `detected_language` the tag
above the transcript holds that label. -/
theorem upload_success_render (s : String → Bool)
    (construct : Option String → Bool) (events : List (Option Chunk))
    (blobOK : Bool) (langSel outSel : Option String) (q a : String)
    (dl : Option String) (ui : UIState) (mime : String)
    (hstart : (startListening s true construct ui).2 = StartOutcome.started mime)
    (hsize : 800 ≤ (assembleBlob (processEvents [] events)).length) :
    (runSession s true construct events blobOK langSel outSel
      (FetchOutcome.success ⟨some q, some a, dl⟩) ui).1.question = q ∧
    (runSession s true construct events blobOK langSel outSel
      (FetchOutcome.success ⟨some q, some a, dl⟩) ui).1.answer = a ∧
    (runSession s true construct events blobOK langSel outSel
      (FetchOutcome.success ⟨some q, some a, dl⟩) ui).1.status = "Idle" ∧
    (runSession s true construct events blobOK langSel outSel
      (FetchOutcome.success ⟨some q, some a, dl⟩) ui).2.isSome = true ∧
    (dl = none →
      (runSession s true construct events blobOK langSel outSel
        (FetchOutcome.success ⟨some q, some a, dl⟩) ui).1.detectedLang =
        none) ∧
    (∀ l, dl = some l → ¬ l = "" →
      (runSession s true construct events blobOK langSel outSel
        (FetchOutcome.success ⟨some q, some a, dl⟩) ui).1.detectedLang =
        some ("Detected language: " ++ l)) := by
  have h1 := startListening_started s construct ui mime hstart
  have hrun : runSession s true construct events blobOK langSel outSel
      (FetchOutcome.success ⟨some q, some a, dl⟩) ui =
      stopListening true (processEvents [] events) mime blobOK langSel outSel
        (FetchOutcome.success ⟨some q, some a, dl⟩)
        { resetUI ui with
            startVisible := false, stopVisible := true,
            status := listeningStatus } := by
    simp only [runSession, h1]
  obtain ⟨hq, ha, hs, hr⟩ := stop_success_fields (processEvents [] events)
    mime blobOK langSel outSel
    { resetUI ui with
        startVisible := false, stopVisible := true,
        status := listeningStatus } ⟨some q, some a, dl⟩ hsize
  have hd := stop_success_detectedLang (processEvents [] events) mime blobOK
    langSel outSel
    { resetUI ui with
        startVisible := false, stopVisible := true,
        status := listeningStatus } (some q) (some a) dl hsize
  refine ⟨?_, ?_, ?_, ?_, ?_, ?_⟩
  · rw [hrun]
    simpa using hq
  · rw [hrun]
    simpa using ha
  · rw [hrun]
    exact hs
  · rw [hrun]
    exact hr
  · intro hdl
    subst hdl
    rw [hrun, hd]
    simp [resetUI]
  · intro l hdl hne
    subst hdl
    rw [hrun, hd]
    simp [hne]

/-- A page still showing the previous run's result, including a stale
detected-language tag. -/
def staleUI : UIState :=
  { idleUI with
      question := "old question", answer := "old answer",
      detectedLang := some "Detected language: fr" }

/-- Witness for C4: from a page with a stale tag, an 800-byte capture whose
response is `question "Q"`, `answer "A"` and no `detected_language` renders
"Q"/"A", idles the status, issued the upload, and leaves no tag. -/
theorem upload_success_render_w :
    (runSession (fun _ => true) true (fun _ => true) [some bigChunk] true
      none none (FetchOutcome.success ⟨some "Q", some "A", none⟩)
      staleUI).1.question = "Q" ∧
    (runSession (fun _ => true) true (fun _ => true) [some bigChunk] true
      none none (FetchOutcome.success ⟨some "Q", some "A", none⟩)
      staleUI).1.answer = "A" ∧
    (runSession (fun _ => true) true (fun _ => true) [some bigChunk] true
      none none (FetchOutcome.success ⟨some "Q", some "A", none⟩)
      staleUI).1.status = "Idle" ∧
    (runSession (fun _ => true) true (fun _ => true) [some bigChunk] true
      none none (FetchOutcome.success ⟨some "Q", some "A", none⟩)
      staleUI).2.isSome = true ∧
    (runSession (fun _ => true) true (fun _ => true) [some bigChunk] true
      none none (FetchOutcome.success ⟨some "Q", some "A", none⟩)
      staleUI).1.detectedLang = none := by
  have hb : processEvents [] [some bigChunk] = [bigChunk] := by
    simp [processEvents, handleData, bigChunk_len]
  have hsize : 800 ≤ (assembleBlob (processEvents [] [some bigChunk])).length := by
    rw [hb]
    simp [assembleBlob, bigChunk_len]
  have h := upload_success_render (fun _ => true) (fun _ => true)
    [some bigChunk] true none none "Q" "A" none staleUI
    "audio/webm;codecs=opus" rfl hsize
  exact ⟨h.1, h.2.1, h.2.2.1, h.2.2.2.1, h.2.2.2.2.1 rfl⟩

/-- Counterexample to C6 as stated: with every format reported supported but
both encoder constructions throwing, the start aborts with the
"recording not supported" status, yet the start control is NOT visible
afterwards — the UI is not returned to its idle affordances. -/
theorem construction_failure_buttons_cx :
    ¬ ((startListening (fun _ => true) true (fun _ => false)
        idleUI).1.startVisible = true) := by decide

/-- C6 (amended): when encoder construction with the negotiated format
throws, construction is retried exactly once with the hard-coded
"audio/ogg" fallback; if that retry succeeds the session runs with
"audio/ogg", and if it also throws the status becomes the
"recording not supported" message and the start aborts — but the start/stop
controls keep their listening configuration (start hidden, stop shown)
instead of returning to the idle affordances. -/
theorem construction_fallback_amended (s : String → Bool)
    (construct : Option String → Bool) (ui : UIState)
    (hfail : construct (startOptions s) = false) :
    (construct (some "audio/ogg") = true →
      startListening s true construct ui =
        ({ resetUI ui with
            startVisible := false, stopVisible := true,
            status := listeningStatus }, StartOutcome.started "audio/ogg")) ∧
    (construct (some "audio/ogg") = false →
      (startListening s true construct ui).1.status = notSupportedStatus ∧
      (startListening s true construct ui).2 = StartOutcome.aborted ∧
      (startListening s true construct ui).1.startVisible = false ∧
      (startListening s true construct ui).1.stopVisible = true) := by
  constructor
  · intro h2
    simp [startListening, hfail, h2]
  · intro h2
    simp [startListening, hfail, h2]

/-- Witness for C6 (amended): a device that rejects the negotiated
"audio/webm;codecs=opus" but accepts the "audio/ogg" retry starts with
"audio/ogg". -/
theorem construction_fallback_amended_w :
    startListening (fun _ => true) true (fun o => o == some "audio/ogg")
      idleUI =
      ({ resetUI idleUI with
          startVisible := false, stopVisible := true,
          status := listeningStatus }, StartOutcome.started "audio/ogg") :=
  (construction_fallback_amended (fun _ => true)
    (fun o => o == some "audio/ogg") idleUI (by decide)).1 (by decide)

/-- Counterexample to C7 as stated: when the microphone request is rejected,
the start control is NOT visible afterwards — the UI is not reset to a state
from which the user can immediately retry. -/
theorem mic_blocked_buttons_cx :
    ¬ ((startListening (fun _ => true) false (fun _ => true)
        idleUI).1.startVisible = true) := by decide

/-- C7 (amended): when the platform rejects the audio-stream request, the
status is set to the microphone-blocked message and the start aborts before
any encoder is constructed (the outcome does not depend on the construction
behaviour at all); the start/stop controls, however, keep their listening
configuration (start hidden, stop shown) — pressing stop then takes the
inactive-recorder guard, which restores "Idle" and the idle buttons, after
which the user can retry. -/
theorem mic_blocked_amended (s : String → Bool)
    (construct construct' : Option String → Bool) (ui : UIState) :
    (startListening s false construct ui).1.status = micBlockedStatus ∧
    (startListening s false construct ui).2 = StartOutcome.aborted ∧
    startListening s false construct ui =
      startListening s false construct' ui ∧
    (startListening s false construct ui).1.startVisible = false ∧
    (startListening s false construct ui).1.stopVisible = true ∧
    (stopListening false [] "" true none none FetchOutcome.failure
      (startListening s false construct ui).1).1.status = "Idle" ∧
    (stopListening false [] "" true none none FetchOutcome.failure
      (startListening s false construct ui).1).1.startVisible = true ∧
    (stopListening false [] "" true none none FetchOutcome.failure
      (startListening s false construct ui).1).1.stopVisible = false := by
  simp [startListening, stopListening]

/-- C8: the extension mapping of the src/unnamed/part_000 stop path agrees
with the claimed total mapping on every negotiable format (including the
claimed "mpeg" to "mp3" case), while the src/interview.js stop path lacks
the "mpeg" case: a negotiated "audio/mpeg" yields extension "webm" there and
the uploaded filename is "speech.webm", not "speech.mp3". -/
theorem extension_mapping_mpeg_divergence :
    extInterview "audio/mpeg" = "webm" ∧
    extPart000 "audio/mpeg" = "mp3" ∧
    ((stopListening true [bigChunk] "audio/mpeg" true none none
        FetchOutcome.failure idleUI).2.map UploadRequest.filename) =
      some "speech.webm" ∧
    extInterview "audio/webm;codecs=opus" = "webm" ∧
    extInterview "audio/webm" = "webm" ∧
    extInterview "audio/ogg" = "ogg" ∧
    extInterview "audio/mp4" = "mp4" ∧
    extInterview "audio/wav" = "webm" ∧
    extInterview "" = "webm" ∧
    extPart000 "audio/webm;codecs=opus" = "webm" ∧
    extPart000 "audio/webm" = "webm" ∧
    extPart000 "audio/ogg" = "ogg" ∧
    extPart000 "audio/mp4" = "mp4" ∧
    extPart000 "audio/wav" = "webm" ∧
    extPart000 "" = "webm" := by
  have h' : ¬ (assembleBlob [bigChunk]).length < 800 := by
    simp [assembleBlob, bigChunk_len]
  refine ⟨by decide, by decide, ?_, by decide, by decide, by decide,
    by decide, by decide, by decide, by decide, by decide, by decide,
    by decide, by decide, by decide⟩
  have e1 : extInterview "audio/mpeg" = "webm" := by decide
  simp [stopListening, h', e1]
